import Mathlib

/-!
Verification of the fetch-validate-clean pipeline of the uk-energy-grid
repository (`src/data/fetch_data.py`, class `ElexonDataFetcher`).

The pandas DataFrame manipulated by the pipeline is embedded shallowly as a
list of rows, each row an ordered association list from column name to value.
This keeps the column-level behaviour of the source visible: in particular
`DataFrame.merge` suffixes overlapping non-key column names with `_x` / `_y`,
which matters when the quality filter is re-run on its own output.

The retry loop of `fetch_generation_data` is embedded as a recursion over the
sequence of per-attempt upstream outcomes, recording the trace the source
produces: the result, the arguments of the `time.sleep` calls, and the number
of HTTP requests issued.  `fetch_historical_data`'s chunk loop is embedded
over integer instants measured in days.
-/

namespace UkEnergyGrid

/-- A cell value of the embedded DataFrame: integers (timestamps after
`pd.to_datetime` are modelled as integer instants, and `generation_mw`
quantities as integers), strings (`fuel_type`), and booleans (the
`quality_flag` column). -/
inductive Value where
  | int : Int → Value
  | str : String → Value
  | bool : Bool → Value
deriving DecidableEq

/-- A DataFrame row: ordered list of (column name, value) pairs. -/
abbrev Row := List (String × Value)

/-- A DataFrame: list of rows. All rows of a frame built by the pipeline share
one column list, in order. -/
abbrev DataFrame := List Row

/-- Value of column `c` in row `r`, if present (first occurrence). -/
def colVal (r : Row) (c : String) : Option Value :=
  (r.find? (fun cv => cv.1 == c)).map (fun cv => cv.2)

/-- The `timestamp` cell of a row. Rows handled by the pipeline always carry
the column; the default is never reached in any theorem below. -/
def tsOf (r : Row) : Value :=
  (colVal r "timestamp").getD (Value.int 0)

/-- The `generation_mw` cell of a row, as an integer. -/
def genOf (r : Row) : Int :=
  match colVal r "generation_mw" with
  | some (Value.int i) => i
  | _ => 0

/-- The `quality_flag` cell of a row (the boolean mask
`df[df['quality_flag']]` reads this column). -/
def flagOf (r : Row) : Bool :=
  match colVal r "quality_flag" with
  | some (Value.bool b) => b
  | _ => false

/-- Whether the frame has a column named `c` (pandas column sets are uniform
across rows; the first row is representative). -/
def hasCol (df : DataFrame) (c : String) : Bool :=
  match df with
  | [] => false
  | r :: _ => r.any (fun cv => cv.1 == c)

/-- Source constant `ElexonDataFetcher.MIN_TOTAL_GENERATION = 25000` (MW). -/
def MIN_TOTAL_GENERATION : Int := 25000

/-- Evaluation of `df.groupby('timestamp')['generation_mw'].sum()` at
timestamp `t`: the sum of `generation_mw` over the rows of `df` whose
timestamp is `t`. -/
def groupSum (df : DataFrame) (t : Value) : Int :=
  ((df.filter (fun r => tsOf r == t)).map genOf).sum

/-- Embedding of `ElexonDataFetcher._apply_quality_checks`:

* an empty frame is returned unchanged;
* `totals` = per-timestamp sum of `generation_mw`, with
  `quality_flag = total_generation >= MIN_TOTAL_GENERATION`;
* `df.merge(totals[['timestamp','total_generation','quality_flag']],
  on='timestamp')` is an inner merge on the key `timestamp`: every left row
  matches exactly one totals row, left row order is preserved, and a non-key
  column present on both sides is renamed with the default pandas suffixes
  (`_x` for the left copy, `_y` for the right copy);
* rows are kept where `quality_flag` holds, then the `quality_flag` column is
  dropped.

If the input frame already had a `quality_flag` column the real code would
raise a `KeyError` at the mask and drop steps (both copies having been
renamed); no frame built by this pipeline has one, and no theorem below
exercises that case. -/
def applyQualityChecks (df : DataFrame) : DataFrame :=
  if df.isEmpty then df
  else
    let clashTG := hasCol df "total_generation"
    let clashQF := hasCol df "quality_flag"
    let tgName := if clashTG then "total_generation_y" else "total_generation"
    let qfName := if clashQF then "quality_flag_y" else "quality_flag"
    let merged := df.map (fun r =>
      (r.map (fun cv =>
        if (cv.1 == "total_generation" && clashTG)
            || (cv.1 == "quality_flag" && clashQF)
        then (cv.1 ++ "_x", cv.2) else cv))
      ++ [(tgName, Value.int (groupSum df (tsOf r))),
          (qfName, Value.bool (decide (MIN_TOTAL_GENERATION ≤ groupSum df (tsOf r))))])
    let kept := merged.filter flagOf
    kept.map (fun r => r.filter (fun cv => cv.1 != "quality_flag"))

/-- A parsed generation record: the three columns produced by
`ElexonDataFetcher._parse_response`. -/
structure GenerationRecord where
  timestamp : Int
  fuel_type : String
  generation_mw : Int
deriving DecidableEq

/-- The DataFrame row of a `GenerationRecord` (columns in source order). -/
def toRow (g : GenerationRecord) : Row :=
  [("timestamp", Value.int g.timestamp),
   ("fuel_type", Value.str g.fuel_type),
   ("generation_mw", Value.int g.generation_mw)]

/-- Per-timestamp total over a record list (specification-level counterpart of
`groupSum` on the corresponding frame). -/
def recordGroupSum (X : List GenerationRecord) (t : Int) : Int :=
  ((X.filter (fun g => g.timestamp == t)).map (fun g => g.generation_mw)).sum

/-- Projection of a row to the three input columns `timestamp`, `fuel_type`,
`generation_mw`. -/
def projFields (r : Row) : Row :=
  r.filter (fun cv => cv.1 == "timestamp" || cv.1 == "fuel_type"
      || cv.1 == "generation_mw")

/-- Column-projection of a frame to the three input columns. -/
def proj (df : DataFrame) : DataFrame := df.map projFields

/-- One attempt's upstream result as seen inside the `try` block of
`fetch_generation_data`:

* `ok df` — the request returned status 200 and `response.json()` together
  with `_parse_response` succeeded, producing the frame `df`;
* `malformed` — the request returned status 200 but `response.json()` or
  `_parse_response` raised (unparseable or mis-shaped body);
* `badStatus` — the request returned with a non-200 status (no exception, the
  loop logs a warning and continues);
* `transport` — the HTTP call itself raised. -/
inductive Outcome where
  | ok : DataFrame → Outcome
  | malformed : Outcome
  | badStatus : Outcome
  | transport : Outcome
deriving DecidableEq

/-- Whether an attempt outcome is the successful one. -/
def Outcome.isOk : Outcome → Bool
  | .ok _ => true
  | _ => false

/-- How `fetch_generation_data` terminates:

* `success df` — returned the quality-checked frame;
* `raisedTransport` — the bare `raise` on the last attempt re-raised the
  transport exception;
* `raisedParse` — the bare `raise` on the last attempt re-raised the
  json/parse exception;
* `exhausted` — fell out of the loop (every attempt had a non-200 status) and
  raised `Exception('Failed to fetch data after all retry attempts')`. -/
inductive FetchResult where
  | success : DataFrame → FetchResult
  | raisedTransport : FetchResult
  | raisedParse : FetchResult
  | exhausted : FetchResult
deriving DecidableEq

/-- Observable trace of one `fetch_generation_data` call: its result, the
arguments of the `time.sleep(2 ** attempt)` calls in order, and the number of
loop iterations that issued an HTTP request. -/
structure FetchTrace where
  result : FetchResult
  delays : List Nat
  attempts : Nat
deriving DecidableEq

/-- The retry loop `for attempt in range(retry_attempts)` of
`fetch_generation_data`, from iteration `attempt` with `remaining` iterations
left. On `ok` the parsed frame passes through `_apply_quality_checks` and is
returned. On a non-200 status the loop continues immediately (no sleep is on
that path). On an exception (transport failure or parse failure) the loop
sleeps `2 ** attempt` seconds and retries if `attempt < retry_attempts - 1`,
and otherwise re-raises the exception. Falling out of the loop raises the
generic exhausted exception. -/
def fetchGo (outcome : Nat → Outcome) (retry_attempts : Nat) :
    Nat → Nat → FetchTrace
  | 0, _ => ⟨.exhausted, [], 0⟩
  | remaining + 1, attempt =>
    match outcome attempt with
    | .ok df => ⟨.success (applyQualityChecks df), [], 1⟩
    | .badStatus =>
      let t := fetchGo outcome retry_attempts remaining (attempt + 1)
      ⟨t.result, t.delays, t.attempts + 1⟩
    | .malformed =>
      if attempt < retry_attempts - 1 then
        let t := fetchGo outcome retry_attempts remaining (attempt + 1)
        ⟨t.result, 2 ^ attempt :: t.delays, t.attempts + 1⟩
      else ⟨.raisedParse, [], 1⟩
    | .transport =>
      if attempt < retry_attempts - 1 then
        let t := fetchGo outcome retry_attempts remaining (attempt + 1)
        ⟨t.result, 2 ^ attempt :: t.delays, t.attempts + 1⟩
      else ⟨.raisedTransport, [], 1⟩

/-- The whole retry loop of `fetch_generation_data`, starting at attempt 0. -/
def fetchLoop (outcome : Nat → Outcome) (retry_attempts : Nat) : FetchTrace :=
  fetchGo outcome retry_attempts retry_attempts 0

/-- A timezone-aware instant: whole seconds since the epoch plus a
sub-second microsecond part (`datetime` carries microsecond precision). -/
structure Instant where
  seconds : Int
  micros : Nat
deriving DecidableEq

/-- Total microsecond count of an instant, used to compare instants. -/
def Instant.toMicros (t : Instant) : Int :=
  t.seconds * 1000000 + t.micros

/-- Embedding of `strftime('%Y-%m-%dT%H:%M:%SZ')`: the format string has
directives only down to whole seconds (`%S`) and no sub-second directive, so
the produced string carries exactly the whole-second part of the instant. The
string is identified with the whole-second count it denotes. -/
def formatTimestamp (t : Instant) : Int := t.seconds

/-- Parsing a formatted timestamp string back: it denotes the instant at that
whole second, with zero microseconds. -/
def parseTimestamp (s : Int) : Instant := ⟨s, 0⟩

/-- The `params` dict built by `fetch_generation_data`: the `from` and `to`
query values. -/
def requestParams (start_date end_date : Instant) : Int × Int :=
  (formatTimestamp start_date, formatTimestamp end_date)

/-- Embedding of `fetch_generation_data`: builds the query parameters from
the two instants and runs the retry loop. The source performs no comparison
of `start_date` against `end_date` anywhere on this path. -/
def fetchGenerationData (start_date end_date : Instant)
    (outcome : Nat → Outcome) (retry_attempts : Nat) : (Int × Int) × FetchTrace :=
  (requestParams start_date end_date, fetchLoop outcome retry_attempts)

/-- The chunk loop of `fetch_historical_data` (instants in days):
`while current_start < end_date:` take
`current_end = min(current_start + chunk_size, end_date)` with
`chunk_size = 7`, emit the window, continue from `current_end`. -/
def chunkWindows (s e : Int) : List (Int × Int) :=
  if s < e then (s, min (s + 7) e) :: chunkWindows (min (s + 7) e) e
  else []
termination_by (e - s).toNat
decreasing_by
  simp_wf
  omega

/-- Embedding of `fetch_historical_data`: `start_date = end_date - days`,
fetch each chunk window in order, then `pd.concat(all_data)` — which raises
`ValueError('No objects to concatenate')` when the chunk list is empty.
`fetch` abstracts the per-window `fetch_generation_data` call. -/
def fetchHistoricalData (fetch : Int → Int → DataFrame) (now days : Int) :
    Except String DataFrame :=
  let start_date := now - days
  let chunks := (chunkWindows start_date now).map (fun w => fetch w.1 w.2)
  if chunks.isEmpty then Except.error "No objects to concatenate"
  else Except.ok chunks.flatten

/-! ### Helper lemmas on the quality filter -/

theorem tsOf_toRow (g : GenerationRecord) : tsOf (toRow g) = Value.int g.timestamp := by
  simp [tsOf, toRow, colVal, List.find?]

theorem genOf_toRow (g : GenerationRecord) : genOf (toRow g) = g.generation_mw := by
  simp [genOf, toRow, colVal, List.find?]

theorem hasCol_map_toRow_tg (X : List GenerationRecord) :
    hasCol (X.map toRow) "total_generation" = false := by
  cases X with
  | nil => rfl
  | cons x xs => simp [hasCol, toRow]

theorem hasCol_map_toRow_qf (X : List GenerationRecord) :
    hasCol (X.map toRow) "quality_flag" = false := by
  cases X with
  | nil => rfl
  | cons x xs => simp [hasCol, toRow]

theorem flagOf_row (g : GenerationRecord) (v : Value) (b : Bool) :
    flagOf (toRow g ++ [("total_generation", v), ("quality_flag", Value.bool b)]) = b := by
  simp [flagOf, toRow, colVal, List.find?_append, List.find?]

theorem dropQF_row (g : GenerationRecord) (v : Value) :
    List.filter (fun cv => cv.1 != "quality_flag")
      (toRow g ++ [("total_generation", v), ("quality_flag", Value.bool true)])
      = toRow g ++ [("total_generation", v)] := by
  simp [toRow, List.filter_append, List.filter]

theorem pipeline_spine (S : GenerationRecord → Int) (L : List GenerationRecord) :
    List.map (fun r => List.filter (fun cv => cv.1 != "quality_flag") r)
      (List.filter flagOf
        (List.map (fun g => toRow g ++
            [("total_generation", Value.int (S g)),
             ("quality_flag", Value.bool (decide (MIN_TOTAL_GENERATION ≤ S g)))]) L)) =
    List.map (fun g => toRow g ++ [("total_generation", Value.int (S g))])
      (L.filter (fun g => decide (MIN_TOTAL_GENERATION ≤ S g))) := by
  induction L with
  | nil => rfl
  | cons g L ih =>
    simp only [List.map_cons, List.filter_cons, flagOf_row]
    by_cases h : MIN_TOTAL_GENERATION ≤ S g
    · simp [h, ih, dropQF_row]
      simp only [toRow, List.mem_cons]
      rintro a b hab
      rcases hab with h1 | h1 | h1 | h1 <;> simp_all
    · simp [h, ih]

theorem applyQualityChecks_map_toRow (X : List GenerationRecord) :
    applyQualityChecks (X.map toRow) =
      (X.filter (fun g => decide (MIN_TOTAL_GENERATION ≤ groupSum (X.map toRow) (Value.int g.timestamp)))).map
        (fun g => toRow g ++
          [("total_generation", Value.int (groupSum (X.map toRow) (Value.int g.timestamp)))]) := by
  rcases X with _ | ⟨x, xs⟩
  · rfl
  · simp only [applyQualityChecks, hasCol_map_toRow_tg, hasCol_map_toRow_qf,
      Bool.and_false, Bool.or_false, Bool.false_eq_true, if_false, List.isEmpty_cons,
      List.map_map, Function.comp, List.map_id', tsOf_toRow]
    exact pipeline_spine (fun g => groupSum ((x :: xs).map toRow) (Value.int g.timestamp)) (x :: xs)

theorem beq_int_val (a b : Int) : (Value.int a == Value.int b) = (a == b) := by
  by_cases h : a = b
  · subst h; simp
  · simp [h]

theorem tsOf_toRow_append (g : GenerationRecord) (rest : Row) :
    tsOf (toRow g ++ rest) = Value.int g.timestamp := by
  simp [tsOf, toRow, colVal, List.find?_append, List.find?]

theorem genOf_toRow_append (g : GenerationRecord) (rest : Row) :
    genOf (toRow g ++ rest) = g.generation_mw := by
  simp [genOf, toRow, colVal, List.find?_append, List.find?]

theorem groupSum_map (f : GenerationRecord → Row)
    (hts : ∀ g, tsOf (f g) = Value.int g.timestamp)
    (hgen : ∀ g, genOf (f g) = g.generation_mw)
    (L : List GenerationRecord) (t : Int) :
    groupSum (L.map f) (Value.int t) = recordGroupSum L t := by
  unfold groupSum recordGroupSum
  rw [List.filter_map, List.map_map]
  have h1 : List.filter ((fun r => tsOf r == Value.int t) ∘ f) L
      = List.filter (fun g => g.timestamp == t) L :=
    List.filter_congr (fun g _ => by simp [Function.comp, hts, beq_int_val])
  rw [h1]
  exact congrArg List.sum (List.map_congr_left (fun g _ => by simp [Function.comp, hgen]))

theorem groupSum_toRow (X : List GenerationRecord) (t : Int) :
    groupSum (X.map toRow) (Value.int t) = recordGroupSum X t :=
  groupSum_map toRow tsOf_toRow genOf_toRow X t

theorem filter_ts_filter_thresh (X : List GenerationRecord) (t : Int)
    (ht : MIN_TOTAL_GENERATION ≤ recordGroupSum X t) :
    (X.filter (fun g => decide (MIN_TOTAL_GENERATION ≤ recordGroupSum X g.timestamp))).filter
        (fun g => g.timestamp == t)
      = X.filter (fun g => g.timestamp == t) := by
  rw [List.filter_filter]
  apply List.filter_congr
  intro a _
  by_cases hat : a.timestamp = t
  · rw [hat]; simp [ht]
  · simp [hat]

theorem recordGroupSum_filter (X : List GenerationRecord) (t : Int)
    (ht : MIN_TOTAL_GENERATION ≤ recordGroupSum X t) :
    recordGroupSum
        (X.filter (fun g => decide (MIN_TOTAL_GENERATION ≤ recordGroupSum X g.timestamp))) t
      = recordGroupSum X t := by
  have h := filter_ts_filter_thresh X t ht
  unfold recordGroupSum at h ⊢
  rw [h]

theorem projFields_toRow_append (g : GenerationRecord) (rest : Row) :
    projFields (toRow g ++ rest) = toRow g ++ projFields rest := by
  simp [projFields, toRow, List.filter_append, List.filter]

theorem projFields_tg (v : Value) :
    projFields [("total_generation", v)] = [] := by
  simp [projFields, List.filter]

theorem projFields_tgxy (v w : Value) :
    projFields [("total_generation_x", v), ("total_generation_y", w)] = [] := by
  simp [projFields, List.filter]

theorem hasCol_map_row4_tg (w : GenerationRecord → Int) (L : List GenerationRecord) (hL : L ≠ []) :
    hasCol (L.map (fun g => toRow g ++ [("total_generation", Value.int (w g))]))
      "total_generation" = true := by
  cases L with
  | nil => exact absurd rfl hL
  | cons x xs => simp [hasCol, toRow]

theorem hasCol_map_row4_qf (w : GenerationRecord → Int) (L : List GenerationRecord) :
    hasCol (L.map (fun g => toRow g ++ [("total_generation", Value.int (w g))]))
      "quality_flag" = false := by
  cases L with
  | nil => rfl
  | cons x xs => simp [hasCol, toRow]

theorem rename_row4 (g : GenerationRecord) (v : Value) :
    List.map (fun cv : String × Value =>
        if cv.1 == "total_generation"
        then (cv.1 ++ "_x", cv.2) else cv) (toRow g ++ [("total_generation", v)])
      = toRow g ++ [("total_generation_x", v)] := by
  simp [toRow]

theorem flagOf_row5 (g : GenerationRecord) (v v' : Value) (b : Bool) :
    flagOf (toRow g ++ [("total_generation_x", v),
        ("total_generation_y", v'), ("quality_flag", Value.bool b)]) = b := by
  simp [flagOf, toRow, colVal, List.find?_append, List.find?]

theorem dropQF_row5 (g : GenerationRecord) (v v' : Value) :
    List.filter (fun cv => cv.1 != "quality_flag")
      (toRow g ++ [("total_generation_x", v),
        ("total_generation_y", v'), ("quality_flag", Value.bool true)])
      = toRow g ++ [("total_generation_x", v), ("total_generation_y", v')] := by
  simp [toRow, List.filter_append, List.filter]

theorem pipeline_spine2 (w S : GenerationRecord → Int) (L : List GenerationRecord) :
    List.map (fun r => List.filter (fun cv => cv.1 != "quality_flag") r)
      (List.filter flagOf
        (List.map (fun g => toRow g ++
            [("total_generation_x", Value.int (w g)),
             ("total_generation_y", Value.int (S g)),
             ("quality_flag", Value.bool (decide (MIN_TOTAL_GENERATION ≤ S g)))]) L)) =
    List.map (fun g => toRow g ++
        [("total_generation_x", Value.int (w g)), ("total_generation_y", Value.int (S g))])
      (L.filter (fun g => decide (MIN_TOTAL_GENERATION ≤ S g))) := by
  induction L with
  | nil => rfl
  | cons g L ih =>
    simp only [List.map_cons, List.filter_cons, flagOf_row5]
    by_cases h : MIN_TOTAL_GENERATION ≤ S g
    · simp [h, ih, dropQF_row5]
      simp only [toRow, List.mem_cons]
      rintro a b hab
      rcases hab with h1 | h1 | h1 | h1 <;> simp_all
    · simp [h, ih]

theorem tsOf_row4 (w : GenerationRecord → Int) (g : GenerationRecord) :
    tsOf (toRow g ++ [("total_generation", Value.int (w g))]) = Value.int g.timestamp :=
  tsOf_toRow_append g _

theorem groupSum_map_row4 (w : GenerationRecord → Int) (L : List GenerationRecord) (t : Int) :
    groupSum (L.map (fun g => toRow g ++ [("total_generation", Value.int (w g))]))
        (Value.int t) = recordGroupSum L t :=
  groupSum_map _ (fun g => tsOf_toRow_append g _) (fun g => genOf_toRow_append g _) L t

theorem applyQualityChecks_map_row4 (w : GenerationRecord → Int) (L : List GenerationRecord) :
    applyQualityChecks (L.map (fun g => toRow g ++ [("total_generation", Value.int (w g))])) =
      (L.filter (fun g => decide (MIN_TOTAL_GENERATION ≤ recordGroupSum L g.timestamp))).map
        (fun g => toRow g ++
          [("total_generation_x", Value.int (w g)),
           ("total_generation_y", Value.int (recordGroupSum L g.timestamp))]) := by
  rcases L with _ | ⟨x, xs⟩
  · rfl
  · have hemp : ((x :: xs).map
        (fun g => toRow g ++ [("total_generation", Value.int (w g))])).isEmpty = false := by
      simp
    simp only [applyQualityChecks, hasCol_map_row4_tg w (x :: xs) (by simp),
      hasCol_map_row4_qf, hemp, Bool.false_eq_true, Bool.and_true, Bool.and_false,
      Bool.or_false, if_false, if_true, List.map_map]
    simp only [Function.comp_def, rename_row4, tsOf_toRow_append, groupSum_map_row4,
      List.append_assoc, List.cons_append, List.nil_append]
    exact pipeline_spine2 w (fun g => recordGroupSum (x :: xs) g.timestamp) (x :: xs)

theorem applyQualityChecks_map_toRow_rgs (X : List GenerationRecord) :
    applyQualityChecks (X.map toRow) =
      (X.filter (fun g => decide (MIN_TOTAL_GENERATION ≤ recordGroupSum X g.timestamp))).map
        (fun g => toRow g ++
          [("total_generation", Value.int (recordGroupSum X g.timestamp))]) := by
  rw [applyQualityChecks_map_toRow]
  simp only [groupSum_toRow]

theorem mem_filter_thresh {X : List GenerationRecord} {g : GenerationRecord}
    (hg : g ∈ X.filter (fun g => decide (MIN_TOTAL_GENERATION ≤ recordGroupSum X g.timestamp))) :
    MIN_TOTAL_GENERATION ≤ recordGroupSum X g.timestamp :=
  of_decide_eq_true (List.mem_filter.mp hg).2

theorem applyQualityChecks_twice (X : List GenerationRecord) :
    applyQualityChecks (applyQualityChecks (X.map toRow)) =
      (X.filter (fun g => decide (MIN_TOTAL_GENERATION ≤ recordGroupSum X g.timestamp))).map
        (fun g => toRow g ++
          [("total_generation_x", Value.int (recordGroupSum X g.timestamp)),
           ("total_generation_y", Value.int (recordGroupSum X g.timestamp))]) := by
  rw [applyQualityChecks_map_toRow_rgs]
  rw [applyQualityChecks_map_row4 (fun g => recordGroupSum X g.timestamp)]
  have hstab : ∀ g ∈ X.filter
      (fun g => decide (MIN_TOTAL_GENERATION ≤ recordGroupSum X g.timestamp)),
      recordGroupSum (X.filter
        (fun g => decide (MIN_TOTAL_GENERATION ≤ recordGroupSum X g.timestamp))) g.timestamp
        = recordGroupSum X g.timestamp := by
    intro g hg
    exact recordGroupSum_filter X g.timestamp (mem_filter_thresh hg)
  have hall : (X.filter
      (fun g => decide (MIN_TOTAL_GENERATION ≤ recordGroupSum X g.timestamp))).filter
      (fun g => decide (MIN_TOTAL_GENERATION ≤ recordGroupSum
        (X.filter (fun g => decide (MIN_TOTAL_GENERATION ≤ recordGroupSum X g.timestamp)))
        g.timestamp))
      = X.filter (fun g => decide (MIN_TOTAL_GENERATION ≤ recordGroupSum X g.timestamp)) := by
    apply List.filter_eq_self.mpr
    intro g hg
    rw [hstab g hg]
    exact decide_eq_true (mem_filter_thresh hg)
  rw [hall]
  apply List.map_congr_left
  intro g hg
  rw [hstab g hg]

theorem proj_applyQualityChecks (X : List GenerationRecord) :
    proj (applyQualityChecks (X.map toRow)) =
      (X.filter (fun g => decide (MIN_TOTAL_GENERATION ≤ recordGroupSum X g.timestamp))).map
        toRow := by
  rw [applyQualityChecks_map_toRow_rgs]
  unfold proj
  rw [List.map_map]
  apply List.map_congr_left
  intro g _
  simp [Function.comp_def, projFields_toRow_append, projFields_tg]

/-! ### Helper lemmas on the retry loop -/

theorem fetchLoop_attempts_3 (o : Nat → Outcome)
    (h : ∀ i, i < 3 → (o i).isOk = false) :
    (fetchLoop o 3).attempts = 3 := by
  have h0 := h 0 (by omega)
  have h1 := h 1 (by omega)
  have h2 := h 2 (by omega)
  unfold fetchLoop
  rcases e0 : o 0 with df0 | _ | _ | _ <;>
    rcases e1 : o 1 with df1 | _ | _ | _ <;>
      rcases e2 : o 2 with df2 | _ | _ | _ <;>
        simp_all [fetchGo, e0, e1, e2, Outcome.isOk]

theorem fetchGo_malformed_eq_transport (retry : Nat) :
    ∀ remaining attempt,
      (fetchGo (fun _ => Outcome.malformed) retry remaining attempt).delays
        = (fetchGo (fun _ => Outcome.transport) retry remaining attempt).delays
    ∧ (fetchGo (fun _ => Outcome.malformed) retry remaining attempt).attempts
        = (fetchGo (fun _ => Outcome.transport) retry remaining attempt).attempts := by
  intro remaining
  induction remaining with
  | zero => intro attempt; exact ⟨rfl, rfl⟩
  | succ n ih =>
    intro attempt
    by_cases hlt : attempt < retry - 1
    · simp [fetchGo, hlt, (ih (attempt + 1)).1, (ih (attempt + 1)).2]
    · simp [fetchGo, hlt]

/-! ### Helper lemmas on the chunk loop -/

theorem chunkWindows_neg (s e : Int) (h : ¬ s < e) : chunkWindows s e = [] := by
  rw [chunkWindows]
  simp [h]

theorem chunkWindows_pos (s e : Int) (h : s < e) :
    chunkWindows s e = (s, min (s + 7) e) :: chunkWindows (min (s + 7) e) e := by
  rw [chunkWindows]
  simp [h]

theorem chunkWindows_chain (s e : Int) :
    List.Chain' (fun a b : Int × Int => a.2 = b.1) (chunkWindows s e) := by
  induction s, e using chunkWindows.induct with
  | case1 s e h ih =>
    rw [chunkWindows_pos s e h]
    rw [List.chain'_cons']
    refine ⟨?_, ih⟩
    intro b hb
    by_cases h2 : min (s + 7) e < e
    · rw [chunkWindows_pos _ _ h2] at hb
      simp only [List.head?_cons, Option.mem_def, Option.some.injEq] at hb
      subst hb
      rfl
    · rw [chunkWindows_neg _ _ h2] at hb
      simp at hb
  | case2 s e h =>
    rw [chunkWindows_neg s e h]
    exact List.chain'_nil

theorem chunkWindows_mem (s e : Int) :
    ∀ w ∈ chunkWindows s e, w.1 < w.2 ∧ w.2 - w.1 ≤ 7 := by
  induction s, e using chunkWindows.induct with
  | case1 s e h ih =>
    rw [chunkWindows_pos s e h]
    intro w hw
    rcases List.mem_cons.mp hw with hw | hw
    · subst hw
      constructor <;> simp <;> omega
    · exact ih w hw
  | case2 s e h =>
    rw [chunkWindows_neg s e h]
    intro w hw
    exact absurd hw (List.not_mem_nil w)

theorem chunkWindows_last (s e : Int) (h : s < e) :
    ((chunkWindows s e).getLast?).map Prod.snd = some e := by
  induction s, e using chunkWindows.induct with
  | case1 s e h1 ih =>
    rw [chunkWindows_pos s e h1]
    by_cases h2 : min (s + 7) e < e
    · rw [chunkWindows_pos _ _ h2]
      rw [List.getLast?_cons_cons]
      rw [← chunkWindows_pos _ _ h2]
      exact ih h2
    · rw [chunkWindows_neg _ _ h2]
      simp
      omega
  | case2 s e h1 =>
    exact absurd h h1

theorem chunkWindows_ten (s : Int) :
    chunkWindows s (s + 10) = [(s, s + 7), (s + 7, s + 10)] := by
  rw [chunkWindows_pos _ _ (by omega)]
  rw [show min (s + 7) (s + 10) = s + 7 by omega]
  rw [chunkWindows_pos _ _ (by omega)]
  rw [show min (s + 7 + 7) (s + 10) = s + 10 by omega]
  rw [chunkWindows_neg _ _ (by omega)]

theorem fetchHistoricalData_pos (fetch : Int → Int → DataFrame) (now days : Int)
    (h : 0 < days) :
    fetchHistoricalData fetch now days =
      Except.ok (((chunkWindows (now - days) now).map (fun w => fetch w.1 w.2)).flatten) := by
  simp only [fetchHistoricalData]
  rw [chunkWindows_pos _ _ (by omega)]
  simp

/-! ### Claims -/

/-- C1: the Quality Filter keeps exactly those input records whose timestamp
group sums to at least `MIN_TOTAL_GENERATION`, in input order (first conjunct,
stated on the three data columns — the output rows additionally carry the
merged `total_generation` column, see the C9 theorem), and every timestamp
group present in the output sums to at least `MIN_TOTAL_GENERATION` (second
conjunct). -/
theorem quality_filter_selects_valid_groups (X : List GenerationRecord) :
    proj (applyQualityChecks (X.map toRow)) =
      (X.filter (fun g =>
        decide (MIN_TOTAL_GENERATION ≤ groupSum (X.map toRow) (Value.int g.timestamp)))).map
        toRow
  ∧ ∀ t : Value, (∃ r, r ∈ applyQualityChecks (X.map toRow) ∧ tsOf r = t) →
      MIN_TOTAL_GENERATION ≤ groupSum (applyQualityChecks (X.map toRow)) t := by
  constructor
  · simp only [groupSum_toRow]
    exact proj_applyQualityChecks X
  · intro t ⟨r, hr, hts⟩
    rw [applyQualityChecks_map_toRow_rgs] at hr ⊢
    obtain ⟨g, hg, rfl⟩ := List.mem_map.mp hr
    rw [tsOf_toRow_append] at hts
    subst hts
    rw [groupSum_map_row4]
    rw [recordGroupSum_filter X g.timestamp (mem_filter_thresh hg)]
    exact mem_filter_thresh hg

theorem quality_filter_selects_valid_groups_witness :
    (∃ r, r ∈ applyQualityChecks
        (([⟨0, "Wind", 20000⟩, ⟨0, "Gas", 10000⟩, ⟨1, "Solar", 1000⟩] :
          List GenerationRecord).map toRow) ∧ tsOf r = Value.int 0)
  ∧ MIN_TOTAL_GENERATION ≤ groupSum
      (applyQualityChecks
        (([⟨0, "Wind", 20000⟩, ⟨0, "Gas", 10000⟩, ⟨1, "Solar", 1000⟩] :
          List GenerationRecord).map toRow)) (Value.int 0) :=
  ⟨⟨toRow ⟨0, "Wind", 20000⟩ ++ [("total_generation", Value.int 30000)], by decide, by decide⟩,
   (quality_filter_selects_valid_groups _).2 (Value.int 0)
     ⟨toRow ⟨0, "Wind", 20000⟩ ++ [("total_generation", Value.int 30000)], by decide, by decide⟩⟩

/-- C2 counterexample: on the single passing record (timestamp 0, "Wind",
30000 MW), one filter pass returns the row with a `total_generation` column;
running the filter on that output renames the column to `total_generation_x`
and adds a `total_generation_y` copy (pandas merge suffixes on the column
clash), so `filter(filter(X)) = filter(X)` fails. -/
theorem quality_filter_not_idempotent :
    applyQualityChecks (applyQualityChecks
        (([⟨0, "Wind", 30000⟩] : List GenerationRecord).map toRow))
      ≠ applyQualityChecks (([⟨0, "Wind", 30000⟩] : List GenerationRecord).map toRow) := by
  decide

/-- C2 amended: re-running the filter on its own output keeps exactly the same
rows in the same order with the same `timestamp`, `fuel_type`, `generation_mw`
values (first conjunct), but it is not a literal no-op: the second pass
renames `total_generation` to `total_generation_x` and appends a
`total_generation_y` copy holding the same group total (second conjunct). -/
theorem quality_filter_idempotent_on_data (X : List GenerationRecord) :
    proj (applyQualityChecks (applyQualityChecks (X.map toRow)))
      = proj (applyQualityChecks (X.map toRow))
  ∧ applyQualityChecks (applyQualityChecks (X.map toRow)) =
      (X.filter (fun g => decide (MIN_TOTAL_GENERATION ≤ recordGroupSum X g.timestamp))).map
        (fun g => toRow g ++
          [("total_generation_x", Value.int (recordGroupSum X g.timestamp)),
           ("total_generation_y", Value.int (recordGroupSum X g.timestamp))]) := by
  refine ⟨?_, applyQualityChecks_twice X⟩
  rw [applyQualityChecks_twice, applyQualityChecks_map_toRow_rgs]
  unfold proj
  rw [List.map_map, List.map_map]
  apply List.map_congr_left
  intro g _
  simp [Function.comp_def, projFields_toRow_append, projFields_tg, projFields_tgxy]

/-- C3 counterexample: with `retry_attempts = 3` and the upstream always
failing, the claimed behaviour (delays of 1s then 2s, then the exhausted
error) does not hold: when every failure is a non-200 status the loop sleeps
not at all (the `time.sleep` is only on the exception path), and when every
failure is a transport exception the loop ends by re-raising the transport
exception rather than the exhausted error. -/
theorem fetch_retry_schedule_cex :
    (fetchLoop (fun _ => Outcome.badStatus) 3).delays ≠ [1, 2]
  ∧ (fetchLoop (fun _ => Outcome.transport) 3).result ≠ FetchResult.exhausted := by
  decide

/-- C3 amended: with `retry_attempts = 3` and every upstream call failing,
exactly 3 attempts are made (first conjunct, for any mix of failure kinds);
when every failure is a transport exception the delays are 1s then 2s and the
final transport exception is re-raised (second conjunct); when every failure
is a non-200 status there are no delays and the generic exhausted error is
raised (third conjunct). -/
theorem fetch_retry_schedule (o : Nat → Outcome)
    (h : ∀ i, i < 3 → (o i).isOk = false) :
    (fetchLoop o 3).attempts = 3
  ∧ fetchLoop (fun _ => Outcome.transport) 3 = ⟨FetchResult.raisedTransport, [1, 2], 3⟩
  ∧ fetchLoop (fun _ => Outcome.badStatus) 3 = ⟨FetchResult.exhausted, [], 3⟩ :=
  ⟨fetchLoop_attempts_3 o h, by decide, by decide⟩

theorem fetch_retry_schedule_witness :
    (∀ i, i < 3 → ((fun _ => Outcome.transport) i).isOk = false)
  ∧ (fetchLoop (fun _ => Outcome.transport) 3).attempts = 3 :=
  ⟨fun _ _ => rfl, (fetch_retry_schedule (fun _ => Outcome.transport) (fun _ _ => rfl)).1⟩

/-- C4 counterexample: a success-status response with a malformed body is NOT
non-retryable: `_parse_response` runs inside the `try` of the retry loop, so
with every attempt returning status 200 with a malformed body and
`retry_attempts = 3`, the client does not fail on the first attempt and does
consume retry budget (it sleeps 1s and 2s between three attempts). -/
theorem malformed_not_immediate_cex :
    (fetchLoop (fun _ => Outcome.malformed) 3).attempts ≠ 1
  ∧ (fetchLoop (fun _ => Outcome.malformed) 3).delays ≠ [] := by
  decide

/-- C4 amended: a malformed success-status body raises inside the `try` block
and is handled exactly like a transport failure: with `retry_attempts = 3` it
is retried with backoff delays 1s and 2s over 3 attempts and the parse
exception is finally re-raised (first conjunct), and in general the malformed
and transport cases produce identical delay lists and attempt counts,
differing only in which exception is re-raised (remaining conjuncts). -/
theorem malformed_is_retried (retry remaining attempt : Nat) :
    fetchLoop (fun _ => Outcome.malformed) 3 = ⟨FetchResult.raisedParse, [1, 2], 3⟩
  ∧ (fetchGo (fun _ => Outcome.malformed) retry remaining attempt).delays
      = (fetchGo (fun _ => Outcome.transport) retry remaining attempt).delays
  ∧ (fetchGo (fun _ => Outcome.malformed) retry remaining attempt).attempts
      = (fetchGo (fun _ => Outcome.transport) retry remaining attempt).attempts :=
  ⟨by decide, (fetchGo_malformed_eq_transport retry remaining attempt).1,
   (fetchGo_malformed_eq_transport retry remaining attempt).2⟩

/-- C5: for a span of more than one chunk, the chunk windows are consecutive
(each window's end is the next window's start), start at `s`, end at `e`, are
non-empty and at most 7 days long; a 10-day span yields exactly the windows
`[s, s+7)` and `[s+7, s+10)`; and the historical fetch returns the
concatenation of the per-window outputs in window order. -/
theorem chunk_partition (s e : Int) (h : 7 < e - s) :
    List.Chain' (fun a b : Int × Int => a.2 = b.1) (chunkWindows s e)
  ∧ ((chunkWindows s e).head?).map Prod.fst = some s
  ∧ ((chunkWindows s e).getLast?).map Prod.snd = some e
  ∧ (∀ w ∈ chunkWindows s e, w.1 < w.2 ∧ w.2 - w.1 ≤ 7)
  ∧ chunkWindows s (s + 10) = [(s, s + 7), (s + 7, s + 10)]
  ∧ (∀ (fetch : Int → Int → DataFrame) (now days : Int), 0 < days →
      fetchHistoricalData fetch now days =
        Except.ok (((chunkWindows (now - days) now).map
          (fun w => fetch w.1 w.2)).flatten)) := by
  refine ⟨chunkWindows_chain s e, ?_, chunkWindows_last s e (by omega),
    chunkWindows_mem s e, chunkWindows_ten s, fetchHistoricalData_pos⟩
  rw [chunkWindows_pos _ _ (by omega)]
  rfl

theorem chunk_partition_witness :
    7 < (10 : Int) - 0
  ∧ ((chunkWindows 0 10).head?).map Prod.fst = some 0 :=
  ⟨by decide, (chunk_partition 0 10 (by decide)).2.1⟩

/-- C7 counterexample: `strftime('%Y-%m-%dT%H:%M:%SZ')` truncates to whole
seconds, so for a valid range whose start instant has 500000 microseconds the
`from` string parses back to the truncated instant, not to the start
instant. -/
theorem timestamp_roundtrip_cex :
    (⟨0, 500000⟩ : Instant).toMicros < (⟨10, 0⟩ : Instant).toMicros
  ∧ parseTimestamp (requestParams ⟨0, 500000⟩ ⟨10, 0⟩).1 ≠ (⟨0, 500000⟩ : Instant) := by
  decide

/-- C7 amended: for all valid ranges (start < end) whose endpoints have zero
sub-second part, the two timestamp strings of the Request Builder parse back
to exactly the start and end instants; the formatted string carries only
whole seconds, so the exact round trip holds precisely on whole-second
instants. -/
theorem timestamp_roundtrip_whole_seconds (s e : Instant)
    (hs : s.micros = 0) (he : e.micros = 0)
    (hlt : s.toMicros < e.toMicros) :
    parseTimestamp (requestParams s e).1 = s
  ∧ parseTimestamp (requestParams s e).2 = e := by
  obtain ⟨ss, sm⟩ := s
  obtain ⟨es, em⟩ := e
  simp only at hs he
  subst hs he
  exact ⟨rfl, rfl⟩

theorem timestamp_roundtrip_whole_seconds_witness :
    ((⟨0, 0⟩ : Instant).micros = 0 ∧ (⟨10, 0⟩ : Instant).micros = 0
      ∧ (⟨0, 0⟩ : Instant).toMicros < (⟨10, 0⟩ : Instant).toMicros)
  ∧ parseTimestamp (requestParams ⟨0, 0⟩ ⟨10, 0⟩).1 = (⟨0, 0⟩ : Instant) :=
  ⟨⟨rfl, rfl, by decide⟩,
   (timestamp_roundtrip_whole_seconds ⟨0, 0⟩ ⟨10, 0⟩ rfl rfl (by decide)).1⟩

/-- C8 counterexample: with start = end (so start ≥ end) the pipeline does
not reject before I/O: the retry loop still issues HTTP requests (three of
them here, against an always-failing upstream). -/
theorem no_range_check_cex :
    (fetchGenerationData ⟨0, 0⟩ ⟨0, 0⟩ (fun _ => Outcome.badStatus) 3).2.attempts ≠ 0 := by
  decide

/-- C8 amended: `fetch_generation_data` performs no validation of the range
at all: its retry behaviour is completely independent of the two instants
(first conjunct), and whenever the attempt budget is positive at least one
HTTP request is issued, whatever the range, including start ≥ end (second
conjunct); there is no `InvalidRangeError` path in the code. -/
theorem no_range_check (s e s' e' : Instant) (o : Nat → Outcome) (retry : Nat)
    (h : 0 < retry) :
    (fetchGenerationData s e o retry).2 = (fetchGenerationData s' e' o retry).2
  ∧ 1 ≤ (fetchGenerationData s e o retry).2.attempts := by
  refine ⟨rfl, ?_⟩
  show 1 ≤ (fetchLoop o retry).attempts
  cases retry with
  | zero => omega
  | succ n =>
    unfold fetchLoop
    rcases e0 : o 0 with df0 | _ | _ | _ <;> simp [fetchGo, e0] <;> split <;> simp

theorem no_range_check_witness :
    0 < 3
  ∧ 1 ≤ (fetchGenerationData ⟨0, 0⟩ ⟨0, 0⟩ (fun _ => Outcome.badStatus) 3).2.attempts :=
  ⟨by decide,
   (no_range_check ⟨0, 0⟩ ⟨0, 0⟩ ⟨5, 0⟩ ⟨9, 0⟩ (fun _ => Outcome.badStatus) 3 (by decide)).2⟩

/-- C9: on an input with at least one passing timestamp group, every output
row of the Quality Filter consists of the three input columns plus a
`total_generation` column holding the row's timestamp-group sum, so the
output schema has four columns, not the input's three; and the output is
non-empty. -/
theorem quality_filter_output_schema (X : List GenerationRecord)
    (g0 : GenerationRecord) (hg0 : g0 ∈ X)
    (hpass : MIN_TOTAL_GENERATION ≤ recordGroupSum X g0.timestamp) :
    (∀ r ∈ applyQualityChecks (X.map toRow), ∃ g, g ∈ X ∧
        r = toRow g ++ [("total_generation", Value.int (recordGroupSum X g.timestamp))] ∧
        r.map Prod.fst = ["timestamp", "fuel_type", "generation_mw", "total_generation"])
  ∧ applyQualityChecks (X.map toRow) ≠ [] := by
  constructor
  · intro r hr
    rw [applyQualityChecks_map_toRow_rgs] at hr
    obtain ⟨g, hg, rfl⟩ := List.mem_map.mp hr
    exact ⟨g, (List.mem_filter.mp hg).1, rfl, by simp [toRow]⟩
  · rw [applyQualityChecks_map_toRow_rgs]
    intro hemp
    have hmem : g0 ∈ X.filter
        (fun g => decide (MIN_TOTAL_GENERATION ≤ recordGroupSum X g.timestamp)) :=
      List.mem_filter.mpr ⟨hg0, decide_eq_true hpass⟩
    rw [List.map_eq_nil_iff] at hemp
    rw [hemp] at hmem
    exact List.not_mem_nil g0 hmem

theorem quality_filter_output_schema_witness :
    ((⟨0, "Wind", 30000⟩ : GenerationRecord) ∈
        ([⟨0, "Wind", 30000⟩] : List GenerationRecord)
      ∧ MIN_TOTAL_GENERATION ≤ recordGroupSum
          ([⟨0, "Wind", 30000⟩] : List GenerationRecord)
          (⟨0, "Wind", 30000⟩ : GenerationRecord).timestamp)
  ∧ applyQualityChecks
      (([⟨0, "Wind", 30000⟩] : List GenerationRecord).map toRow) ≠ [] :=
  ⟨⟨by decide, by decide⟩,
   (quality_filter_output_schema ([⟨0, "Wind", 30000⟩] : List GenerationRecord)
      (⟨0, "Wind", 30000⟩ : GenerationRecord) (by decide) (by decide)).2⟩

/-- C10: invoking the historical fetch with `days ≤ 0` makes
`start_date = end_date - days ≥ end_date`, the chunk loop never runs, and
`pd.concat` on the empty chunk list raises
`ValueError('No objects to concatenate')` instead of returning an empty
result. -/
theorem historical_empty_span (fetch : Int → Int → DataFrame) (now days : Int)
    (h : days ≤ 0) :
    fetchHistoricalData fetch now days = Except.error "No objects to concatenate" := by
  simp only [fetchHistoricalData]
  rw [chunkWindows_neg _ _ (by omega)]
  rfl

theorem historical_empty_span_witness :
    (0 : Int) ≤ 0
  ∧ fetchHistoricalData (fun _ _ => ([] : DataFrame)) 100 0 =
      Except.error "No objects to concatenate" :=
  ⟨by decide, historical_empty_span (fun _ _ => ([] : DataFrame)) 100 0 (by decide)⟩

end UkEnergyGrid
